import Mathlib

/-!
Verification of the scscourt scraper core: token lifecycle and the
concurrent case/document pipeline.

Shallow embedding of the Python sources under `src/`:
* `core.py` — `TokenManager` (captcha buffer, refresh loop) and `CaseProcessor`
  (the Document Pipeline);
* `scraper.py` — `CourtScraper` (worklist loading, per-case retry state machine,
  run statistics);
* `services.py` — the service wrappers (only their result/exception shape matters);
* `database.py` — `SupabaseRepository.case_exists`;
* `main.py` / `configuration.py` — process entry and configuration.

Python dicts are embedded as structures carrying exactly the fields the code
reads; an `Option` field is `none` where the Python value is absent or falsy
(Python treats `None`, `""` and `{}` as falsy).  External I/O (captcha solving,
token exchange, case fetch, document fetch, database queries) is passed in as
explicit function parameters, so every definition is executable.
-/

namespace Scscourt

/-- Python truthiness of an optional string: `None` and `""` are falsy.
Used wherever the source writes `if doc_id:`, `if captcha_code:`, etc. -/
def truthyStr : Option String → Option String
  | none => none
  | some s => if s = "" then none else some s

/-- One entry of a `documents` list inside an event or hearing
(the fields read by `core.py` and `database.py`). -/
structure DocRef where
  documentId : Option String
  documentName : Option String
  pdf_base64 : Option String
deriving DecidableEq

/-- An event or hearing entry: the code only reads its `documents` list
(`event.get("documents", [])`). -/
structure CaseEntry where
  documents : List DocRef
deriving DecidableEq

/-- The `"data"` member of a fetched case payload: the fields read by the
pipeline (`caseNumber`, `caseEvents`, `caseHearings`). -/
structure CaseData where
  caseNumber : Option String
  caseEvents : List CaseEntry
  caseHearings : List CaseEntry
deriving DecidableEq

/-- A fetched case payload.  `data = none` models a payload whose `"data"`
member is absent, `None` or the empty dict — exactly the values on which
Python's `not case_data.get("data")` is true. -/
structure CasePayload where
  data : Option CaseData
deriving DecidableEq

/-- The read `case_data.get("data")` — the empty-dict default used by
`CaseProcessor` (`core.py` lines 121, 141, 186). -/
def getData (p : CasePayload) : CaseData :=
  p.data.getD ⟨none, [], []⟩

/-- The document ids of one event/hearing entry, in order, keeping only
truthy ids (`if doc_id:` — `core.py` lines 144-147). -/
def entryDocIds (e : CaseEntry) : List String :=
  e.documents.filterMap (fun d => truthyStr d.documentId)

/-- Embeds `CaseProcessor._extract_document_ids` (`core.py` lines 139-155): walk all
events then all hearings, collecting truthy document ids in payload order
(duplicates retained). -/
def extract_document_ids (p : CasePayload) : List String :=
  ((getData p).caseEvents.flatMap entryDocIds) ++
    ((getData p).caseHearings.flatMap entryDocIds)

/-- Embeds `CaseProcessor._download_document_with_retry` (`core.py` lines 177-183),
unfolded from attempt index `a` with `fuel` attempts remaining: call the
document service once per attempt and return the first truthy content, else
`none` after exhausting the budget.  `fetch` is the document service, indexed
by attempt number so that retries are observable. -/
def download_document_with_retry_from (fetch : Nat → String → Option String)
    (id : String) : Nat → Nat → Option String
  | _, 0 => none
  | a, fuel + 1 =>
    match truthyStr (fetch a id) with
    | some c => some c
    | none => download_document_with_retry_from fetch id (a + 1) fuel

/-- Embeds `CaseProcessor._download_document_with_retry` (`core.py` lines 177-183):
up to `maxRetries` attempts starting at attempt 0. -/
def download_document_with_retry (fetch : Nat → String → Option String)
    (maxRetries : Nat) (id : String) : Option String :=
  download_document_with_retry_from fetch id 0 maxRetries

/-- The lookup view of the dict built by `CaseProcessor._download_documents`
(`core.py` lines 157-175): a document id is mapped to content exactly when it
was among the submitted tasks and its retry loop returned truthy content.
Duplicate ids submit duplicate tasks, but the dict is keyed by id and every
task for a given id runs the same retry loop, so the lookup is by id. -/
def download_documents (fetch : Nat → String → Option String) (maxRetries : Nat)
    (ids : List String) (id : String) : Option String :=
  if id ∈ ids then download_document_with_retry fetch maxRetries id else none

/-- The per-document body of `CaseProcessor._inject_documents_into_case`
(`core.py` lines 190-192 and 196-198): if the document's id is truthy and
present in the map, set `pdf_base64` to the mapped content, else leave the
document unchanged. -/
def injectDoc (dmap : String → Option String) (d : DocRef) : DocRef :=
  match truthyStr d.documentId with
  | some i =>
    match dmap i with
    | some c => { d with pdf_base64 := some c }
    | none => d
  | none => d

/-- Injection over one event/hearing entry. -/
def injectEntry (dmap : String → Option String) (e : CaseEntry) : CaseEntry :=
  ⟨e.documents.map (injectDoc dmap)⟩

/-- Embeds `CaseProcessor._inject_documents_into_case` (`core.py` lines 185-198):
re-walk every event and hearing and attach mapped content.  When `"data"` is
absent the walk visits nothing and the payload is unchanged. -/
def inject_documents_into_case (dmap : String → Option String)
    (p : CasePayload) : CasePayload :=
  match p.data with
  | none => p
  | some cd =>
    ⟨some ⟨cd.caseNumber, cd.caseEvents.map (injectEntry dmap),
        cd.caseHearings.map (injectEntry dmap)⟩⟩

/-- Embeds `CaseProcessor.process_case` (`core.py` lines 120-137): extract ids; with
no ids return the payload unchanged; otherwise download and inject.  Note the
return value is the (possibly updated) payload alone — the source returns
`case_data` on both paths, never a `(payload, stats)` pair. -/
def process_case (fetch : Nat → String → Option String) (maxRetries : Nat)
    (p : CasePayload) : CasePayload :=
  if extract_document_ids p = [] then p
  else
    inject_documents_into_case
      (download_documents fetch maxRetries (extract_document_ids p)) p

/-- All document occurrences of a payload, events first then hearings —
the set of locations walked by both `_extract_document_ids` and
`_inject_documents_into_case`. -/
def allDocs (p : CasePayload) : List DocRef :=
  ((getData p).caseEvents ++ (getData p).caseHearings).flatMap (fun e => e.documents)

/-- Every document occurrence of `p` has no attached content yet
(`content = absent` before download). -/
def allDocsClean (p : CasePayload) : Prop :=
  ∀ d ∈ allDocs p, d.pdf_base64 = none

instance (p : CasePayload) : Decidable (allDocsClean p) := by
  unfold allDocsClean; exact List.decidableBAll _ _

/-- Post-state of the Document Pipeline: every document occurrence carries
exactly the content its (truthy) id's retry download produced — the same
content at every location of that id — and no content when the id is missing
or its download failed. -/
def docsConsistent (fetch : Nat → String → Option String) (maxRetries : Nat)
    (p : CasePayload) : Prop :=
  ∀ d ∈ allDocs p,
    d.pdf_base64 =
      match truthyStr d.documentId with
      | some i => download_document_with_retry fetch maxRetries i
      | none => none

instance (fetch : Nat → String → Option String) (maxRetries : Nat)
    (p : CasePayload) : Decidable (docsConsistent fetch maxRetries p) := by
  unfold docsConsistent; exact List.decidableBAll _ _

/-! Token Manager (`core.py` lines 10-111, services from `services.py`). -/

/-- The mutable state of `TokenManager` relevant to the refresh protocol: the
FIFO captcha buffer (`queue.Queue`; head of the list = front, i.e. the element
the next `get` returns; `put` appends at the back) and the current session
token. -/
structure TMState where
  buffer : List String
  current_token : Option String
deriving DecidableEq

/-- One post-sleep iteration body of `TokenManager._token_refresh_worker`
(`core.py` lines 96-111): `get` one buffered solution (an empty buffer times
out with `queue.Empty`, caught at line 110 — state unchanged); exchange it for
a new token; on success replace the current token; on failure (`get_token`
returned a falsy value) keep the old token and `put` the consumed solution
back, which appends it at the back of the FIFO queue. -/
def token_refresh_once (exchange : String → Option String) (st : TMState) :
    TMState :=
  match st.buffer with
  | [] => st
  | c :: rest =>
    match truthyStr (exchange c) with
    | some t => ⟨rest, some t⟩
    | none => ⟨rest ++ [c], st.current_token⟩

/-- Outcome of one call to `services.CaptchaService.solve_captcha`
(`services.py` lines 13-32): either a solution string, or an exception —
the `except` clause there logs and then re-`raise`s. -/
inductive SolveOutcome
  | solved (s : String)
  | failRaise (e : String)
deriving DecidableEq

/-- The pre-fill loop of `TokenManager.start` (`core.py` lines 35-41), from
solve call index `i` with `fuel` iterations remaining.  Each iteration calls
`solve_captcha`; an exception from it propagates (`start` has no handler), a
truthy solution is `put` into the buffer, a falsy one is only logged. -/
def prefill_from (outcomes : Nat → SolveOutcome) (i : Nat) :
    Nat → Except String (List String)
  | 0 => .ok []
  | fuel + 1 =>
    match outcomes i with
    | .failRaise e => .error e
    | .solved s =>
      if s = "" then prefill_from outcomes (i + 1) fuel
      else (prefill_from outcomes (i + 1) fuel).map (fun l => s :: l)

/-- How a call to `TokenManager.start` (`core.py` lines 31-57) ends. -/
inductive StartOutcome
  | started (token : String) (buf : List String)
  | raisedFromSolve (e : String)
  | raisedInitFailed
  | blocksForever
deriving DecidableEq

/-- Embeds `TokenManager.start` (`core.py` lines 31-57): pre-fill the buffer with
`bufSize` solve calls (a solve exception propagates out of `start`); then
`captcha_buffer.get()` — with no timeout, so an empty buffer blocks forever;
exchange the taken solution for the initial token; a falsy token raises
`RuntimeError("Failed to obtain initial token")` (line 47). -/
def tm_start (outcomes : Nat → SolveOutcome) (exchange : String → Option String)
    (bufSize : Nat) : StartOutcome :=
  match prefill_from outcomes 0 bufSize with
  | .error e => .raisedFromSolve e
  | .ok [] => .blocksForever
  | .ok (c :: rest) =>
    match truthyStr (exchange c) with
    | some t => .started t rest
    | none => .raisedInitFailed

/-- Timed model of `_token_refresh_worker`'s reaction to the stop signal
(`core.py` lines 89-94): the loop consults `_stop_event` only at the top of an
iteration and immediately after `time.sleep(refresh_interval)`; with the
refresh body itself taking no time, consecutive checks fall at times
`0, R, 2R, ...` where `R = refresh_interval`.  A signal set at time `ts` is
observed — and the loop exits — at the first check time that is not earlier
than `ts`, i.e. at `R * ⌈ts / R⌉`. -/
def refresh_exit_time (R ts : Nat) : Nat :=
  ((ts + R - 1) / R) * R

/-- Embeds the join timeout: `TokenManager.stop` joins each background thread with `timeout=5`
(`core.py` lines 62-65). -/
def join_timeout : Nat := 5

/-! Worklist loading and run statistics (`scraper.py`). -/

/-- Embeds Python's `str.strip()` with no argument: remove leading and
trailing whitespace.  Implemented over the character list so that it is
kernel-reducible. -/
def pyStrip (s : String) : String :=
  ⟨((s.data.dropWhile Char.isWhitespace).reverse.dropWhile
      Char.isWhitespace).reverse⟩

/-- Embeds `CourtScraper._load_case_ids` (`scraper.py` lines 101-108): the worklist
file as parsed by `csv.reader` is a list of rows (a blank line parses to the
empty row); keep `row[0].strip()` for every row that is non-empty and whose
stripped first field is non-blank.  No deduplication is performed. -/
def load_case_ids (rows : List (List String)) : List String :=
  rows.filterMap fun r =>
    match r with
    | [] => none
    | f :: _ => if pyStrip f = "" then none else some (pyStrip f)

/-- Embeds the assignment `self.stats["total"] = len(case_ids)` (`scraper.py` line 81). -/
def run_total (rows : List (List String)) : Nat :=
  (load_case_ids rows).length

/-- The number of distinct entries the worklist yields (the claim's
"distinct non-blank lines"). -/
def distinct_count (rows : List (List String)) : Nat :=
  (load_case_ids rows).dedup.length

/-- The number of non-blank lines read (first field if delimited), counted
with multiplicity. -/
def non_blank_count (rows : List (List String)) : Nat :=
  (rows.filter fun r =>
    match r with
    | [] => false
    | f :: _ => decide (pyStrip f ≠ "")).length

/-! Per-case retry state machine (`scraper.py` lines 128-208). -/

/-- Terminal counters a case worker can increment. -/
inductive Counter
  | success
  | failed
  | skipped
deriving DecidableEq

/-- Observable per-case side effects tracked by the model: invoking the
Document Pipeline (`case_processor.process_case`, `scraper.py` line 172) and
invoking the persistence save (`repository.save_case`, line 174). -/
inductive Action
  | pipeline
  | save
deriving DecidableEq

/-- The environment one attempt of `_process_single_case` runs in: the token
the manager currently holds, the case service's response (its exceptions are
all caught internally, `services.py` line 119, so it returns a value or
`None`), and the repository's `case_exists` answer. -/
structure AttemptEnv where
  token : Option String
  fetchResult : Option CasePayload
  dbHasCase : Bool

/-- Embeds the test `if not case_data or not case_data.get("data")` (`scraper.py` line 146). -/
def fetchFalsy : Option CasePayload → Bool
  | none => true
  | some p => p.data.isNone

/-- The truthy case number of a fetched payload
(`case_data.get("data", {}).get("caseNumber")`, `scraper.py` line 158). -/
def fetchedCaseNumber : Option CasePayload → Option String
  | none => none
  | some p => truthyStr ((getData p).caseNumber)

/-- Result of one attempt: continue with the next retry, or terminate the
case on a counter. -/
inductive AttemptRes
  | retry
  | done (c : Counter)
deriving DecidableEq

/-- One attempt of `_process_single_case` (`scraper.py` lines 130-208),
`isLast` meaning `attempt = max_retries - 1`:
* no token (line 132): retry unless last, else `failed`;
* falsy fetch (line 146): retry unless last, else `failed`;
* falsy case number (line 159): `failed`, terminal even with retries left;
* `case_exists` true (line 166): `skipped`, terminal;
* otherwise `process_case(case_data)` runs — the Document Pipeline is invoked —
  and then the attempt raises before touching any counter: `process_case`
  returns the payload dict alone, so the pair-unpacking at line 172 raises
  `ValueError`, or, when the dict happens to have exactly two keys, the
  unpacked second component is a string and `doc_stats["total"]` at line 177
  raises `TypeError`.  The handler at line 200 retries unless last, else
  increments `failed`. -/
def one_attempt (env : AttemptEnv) (isLast : Bool) : AttemptRes × List Action :=
  match env.token with
  | none => if isLast then (.done .failed, []) else (.retry, [])
  | some _ =>
    if fetchFalsy env.fetchResult then
      if isLast then (.done .failed, []) else (.retry, [])
    else
      match fetchedCaseNumber env.fetchResult with
      | none => (.done .failed, [])
      | some _ =>
        if env.dbHasCase then (.done .skipped, [])
        else if isLast then (.done .failed, [.pipeline])
        else (.retry, [.pipeline])

/-- The retry loop `for attempt in range(max_retries)` of
`_process_single_case`, from attempt index `i` with `left` attempts remaining;
returns the counter the case terminates on (`none` only when the budget is
zero) and the accumulated actions of all attempts. -/
def process_single_case_from (envs : Nat → AttemptEnv) :
    Nat → Nat → Option Counter × List Action
  | _, 0 => (none, [])
  | i, left + 1 =>
    match one_attempt (envs i) (left = 0) with
    | (.done c, acts) => (some c, acts)
    | (.retry, acts) =>
      let r := process_single_case_from envs (i + 1) left
      (r.1, acts ++ r.2)

/-- Embeds `CourtScraper._process_single_case` (`scraper.py` lines 128-208) with
retry budget `m` (`config.max_retries`). -/
def process_single_case (m : Nat) (envs : Nat → AttemptEnv) :
    Option Counter × List Action :=
  process_single_case_from envs 0 m

/-- The case counters of `CourtScraper.stats` at run end: `total` is set to
the worklist length (`scraper.py` line 81); each worker increments exactly the
counter its state machine terminated on, so the final value of each counter is
the number of cases that terminated on it.  (`_process_single_case` catches
every exception internally, so the `future.result()` handler at line 123
never fires.) -/
structure RunStats where
  total : Nat
  success : Nat
  failed : Nat
  skipped : Nat
deriving DecidableEq

/-- The run-end statistics for worklist `cases` where case `c`'s attempt `i`
runs in environment `envs c i`. -/
def run_stats (m : Nat) (cases : List String) (envs : String → Nat → AttemptEnv) :
    RunStats where
  total := cases.length
  success := (cases.filter fun c =>
    (process_single_case m (envs c)).1 = some Counter.success).length
  failed := (cases.filter fun c =>
    (process_single_case m (envs c)).1 = some Counter.failed).length
  skipped := (cases.filter fun c =>
    (process_single_case m (envs c)).1 = some Counter.skipped).length

/-- The hypotheses of the skip claim, as a decidable predicate: every attempt
before `j` fails before reaching the case-number check (no token, or falsy
fetch). -/
def preFailBefore (envs : Nat → AttemptEnv) (j : Nat) : Prop :=
  ∀ i < j, (envs i).token = none ∨ fetchFalsy (envs i).fetchResult = true

instance (envs : Nat → AttemptEnv) (j : Nat) :
    Decidable (preFailBefore envs j) := by
  unfold preFailBefore; exact Nat.decidableBallLT _ _

/-- Attempt environment that reaches the existence check: a token is
available, the fetch returned a truthy payload with a truthy case number. -/
def goodCaseEnv (env : AttemptEnv) : Prop :=
  env.token.isSome ∧ fetchFalsy env.fetchResult = false ∧
    (fetchedCaseNumber env.fetchResult).isSome

instance (env : AttemptEnv) : Decidable (goodCaseEnv env) := by
  unfold goodCaseEnv; infer_instance

/-! Persistence sink (`database.py`). -/

/-- Embeds `SupabaseRepository.case_exists` (`database.py` lines 37-43): the Supabase
query either raises or yields `response.data`, which may be `None` or a list
of rows.  The source returns `len(response.data) > 0 if response.data else
False`, and the `except` clause logs a warning and returns `False`. -/
def case_exists (query : String → Except String (Option (List String)))
    (case_number : String) : Bool :=
  match query case_number with
  | .error _ => false
  | .ok none => false
  | .ok (some rows) => decide (0 < rows.length)

/-! Process entry (`main.py`, `configuration.py`, `scraper.py` run). -/

/-- The attribute names defined by the `ScraperConfig` dataclass
(`configuration.py` lines 9-31). -/
def scraperConfigFields : List String :=
  ["capsolver_api_key", "recaptcha_sitekey", "recaptcha_url",
   "proxy_url", "use_proxy",
   "mongodb_uri", "mongodb_database", "mongodb_collection",
   "case_workers", "document_workers", "max_retries",
   "token_refresh_interval", "captcha_buffer_size", "request_timeout"]

/-- The config attributes `CourtScraper.__init__` reads (`scraper.py` lines
19-54): captcha service (22-26), token service (28), token manager (30-35),
case service (37-41), document service (43), case processor (45-49) and the
Supabase repository (51-54). -/
def courtScraperInitReads : List String :=
  ["capsolver_api_key", "recaptcha_sitekey", "recaptcha_url",
   "request_timeout", "token_refresh_interval", "captcha_buffer_size",
   "use_proxy", "proxy_url", "document_workers", "max_retries",
   "supabase_url", "supabase_key"]

/-- Whether `CourtScraper(config)` completes without an `AttributeError`:
every attribute it reads must be a field of `ScraperConfig`. -/
def courtScraperInitOk : Bool :=
  courtScraperInitReads.all (scraperConfigFields.contains ·)

/-- Embeds `CourtScraper.run` (`scraper.py` lines 71-99): it returns normally for every
startup and per-case outcome: the `try` at line 77 wraps `token_manager.start`,
worklist loading and case processing, and its handlers at lines 87-90 catch
`KeyboardInterrupt` and every other `Exception`, so in particular the
`RuntimeError` raised by a failed Token Manager initialization is swallowed
(logged as "Fatal error") and `run` falls through to the summary. -/
def run_returns_normally (_startFails : Bool) (_caseOutcomes : List Bool) :
    Bool :=
  true

/-- The process exit status of `main` (`main.py` lines 11-28): exit 1 when
`CAPSOLVER_API_KEY` is unset (line 16); otherwise any exception escaping
`CourtScraper(config)` or `scraper.run` is caught at line 24 and exits 1;
otherwise `main` returns and the process exits 0.  `startFails` says whether
`TokenManager.start` raises; `caseOutcomes` are the per-case results. -/
def main_exit_code (capsolverKeySet : Bool) (startFails : Bool)
    (caseOutcomes : List Bool) : Nat :=
  if capsolverKeySet = false then 1
  else if courtScraperInitOk = false then 1
  else if run_returns_normally startFails caseOutcomes then 0
  else 1

/-! Concrete fixtures used by the theorems below. -/

/-- A fetched payload with a case number and no document references. -/
def noDocPayload : CasePayload :=
  ⟨some ⟨some "C-1", [], []⟩⟩

/-- A document fetch that always fails. -/
def noFetch : Nat → String → Option String := fun _ _ => none

/-! Theorems for the claims. -/

/-- C1: `CaseProcessor.process_case` does not return a
`(payload, documentStats)` pair — evaluated on a payload with zero document
references it returns the payload alone (a single value of the payload type),
unchanged; no statistics record exists in its result, and the pair-unpacking
at its call site (`scraper.py` line 172) therefore raises. -/
theorem C1_process_case_returns_payload_only :
    process_case noFetch 3 noDocPayload = noDocPayload := rfl

/-- C2: on a run where `CAPSOLVER_API_KEY` is set, Token Manager
initialization succeeds and every case succeeds, the claim demands exit
status zero, but the process exits 1: `CourtScraper.__init__` reads the
`supabase_url` / `supabase_key` attributes, which `ScraperConfig` does not
define, so construction raises `AttributeError`, caught by `main`'s handler
which calls `sys.exit(1)`. -/
theorem C2_main_exits_one_despite_success :
    main_exit_code true false [true, true] = 1 ∧ courtScraperInitOk = false := by
  decide

/-- C6: `TokenManager.start` does abort when an individual captcha solve
fails during buffer pre-fill: `services.CaptchaService.solve_captcha`
re-raises its exception and `start` has no handler around the pre-fill loop,
so with a buffer of size 2 whose first solve raises, `start` propagates the
solve exception instead of logging and continuing. -/
theorem C6_start_aborts_on_prefill_solve_failure :
    tm_start (fun _ => .failRaise "captcha provider error") (fun _ => some "tok") 2
      = .raisedFromSolve "captcha provider error" := rfl

/-- C5 (counterexample): the consumed solution is not returned to the front
of the buffer.  With buffer `["a", "b"]` ("a" at the front) and a failing
exchange, the refresh iteration leaves the buffer as `["b", "a"]`: the
consumed solution "a" went to the back (`queue.Queue.put` appends), so the
front is now "b", not "a" as the claim requires. -/
theorem C5_requeue_not_at_front :
    (token_refresh_once (fun _ => none) ⟨["a", "b"], some "t0"⟩).buffer
        = ["b", "a"] ∧
      (token_refresh_once (fun _ => none) ⟨["a", "b"], some "t0"⟩).buffer.head?
        ≠ some "a" := by
  decide

/-- C5 (amended): when the refresh iteration's token exchange fails, the
previously current session token is retained unchanged and the consumed
captcha solution is returned to the back of the FIFO buffer, restoring the
buffer's size to what it was before the take. -/
theorem C5_requeue_on_failed_exchange (exchange : String → Option String)
    (c : String) (rest : List String) (tok : Option String)
    (hx : truthyStr (exchange c) = none) :
    token_refresh_once exchange ⟨c :: rest, tok⟩ = ⟨rest ++ [c], tok⟩ ∧
      (rest ++ [c]).length = (c :: rest).length := by
  constructor
  · simp [token_refresh_once, hx]
  · simp

/-- C5 (witness): the amended requeue behaviour at a concrete state. -/
theorem C5_requeue_on_failed_exchange_witness :
    truthyStr ((fun _ => (none : Option String)) "a") = none ∧
      (token_refresh_once (fun _ => none) ⟨["a", "b"], some "t0"⟩
          = ⟨["b", "a"], some "t0"⟩ ∧
        (["b"] ++ ["a"]).length = ("a" :: ["b"]).length) :=
  ⟨rfl, C5_requeue_on_failed_exchange (fun _ => none) "a" ["b"] (some "t0") rfl⟩

/-- C9 (counterexample): the refresh loop does not terminate within the
5-second join timeout for every state it may be in when the stop signal is
set.  With the default `refresh_interval = 600` and the signal set one second
into the sleep, the loop's next stop-event check — and hence its exit — comes
599 seconds after the signal, far beyond `join_timeout = 5`. -/
theorem C9_refresh_loop_misses_join_timeout :
    ¬ (refresh_exit_time 600 1 - 1 ≤ join_timeout) := by
  decide

/-- C9 (amended): after `stop()` is signalled, each background loop
terminates at its next stop-event check; for the refresh loop that check is
at most `refresh_interval` seconds after the signal (strictly less than one
full interval), not within the 5-second join timeout that `stop()` waits
for — `Thread.join(timeout=5)` simply returns with the loop still sleeping. -/
theorem C9_refresh_exit_within_one_interval (R ts : Nat) (hR : 1 ≤ R) :
    ts ≤ refresh_exit_time R ts ∧ refresh_exit_time R ts - ts < R := by
  have h2 := Nat.div_add_mod (ts + R - 1) R
  have h3 : (ts + R - 1) % R < R := Nat.mod_lt _ (by omega)
  unfold refresh_exit_time
  rw [Nat.mul_comm]
  obtain ⟨p, hp⟩ : ∃ p, R * ((ts + R - 1) / R) = p := ⟨_, rfl⟩
  rw [hp] at h2 ⊢
  omega

/-- C9 (witness): the amended exit bound at the default configuration. -/
theorem C9_refresh_exit_within_one_interval_witness :
    1 ≤ 600 ∧
      (1 ≤ refresh_exit_time 600 1 ∧ refresh_exit_time 600 1 - 1 < 600) :=
  ⟨by decide, C9_refresh_exit_within_one_interval 600 1 (by decide)⟩

/-- C4 (counterexample): the total counter is not the number of distinct
non-blank lines.  A worklist of two identical lines "A" loads two case ids —
`_load_case_ids` performs no deduplication — so `total = 2` while the file
has one distinct non-blank line. -/
theorem C4_total_counts_duplicates :
    run_total [["A"], ["A"]] = 2 ∧ distinct_count [["A"], ["A"]] = 1 ∧
      (2 : Nat) ≠ 1 := by
  decide

/-- Helper for C4: the worklist length equals the number of non-blank lines
counted with multiplicity, for every file. -/
theorem run_total_eq_non_blank_count (rows : List (List String)) :
    run_total rows = non_blank_count rows := by
  induction rows with
  | nil => rfl
  | cons r rs ih =>
    cases r with
    | nil =>
      simpa [run_total, non_blank_count, load_case_ids, List.filterMap_cons,
        List.filter_cons] using ih
    | cons f fs =>
      by_cases hf : pyStrip f = "" <;>
        simpa [run_total, non_blank_count, load_case_ids, List.filterMap_cons,
          List.filter_cons, hf] using ih

/-- C4 (amended): for every non-empty worklist file, the total counter of the
run statistics equals the number of non-blank lines read (first field if
delimited), counted with multiplicity rather than deduplicated. -/
theorem C4_total_eq_non_blank_lines (rows : List (List String))
    (_hne : rows ≠ []) : run_total rows = non_blank_count rows :=
  run_total_eq_non_blank_count rows

/-- C4 (witness): the amended count at a concrete two-line worklist. -/
theorem C4_total_eq_non_blank_lines_witness :
    ([["A"], ["", "x"], ["B"]] : List (List String)) ≠ [] ∧
      run_total [["A"], ["", "x"], ["B"]]
        = non_blank_count [["A"], ["", "x"], ["B"]] :=
  ⟨by decide, C4_total_eq_non_blank_lines _ (by decide)⟩

/-- Helper: on the last attempt (`attempt = max_retries - 1`) every branch of
`_process_single_case` terminates the case — none retries. -/
theorem one_attempt_last_not_retry (env : AttemptEnv) (acts : List Action) :
    one_attempt env true ≠ (AttemptRes.retry, acts) := by
  rcases env with ⟨tok, fr, db⟩
  cases tok <;> cases hf : fetchFalsy fr <;> cases hn : fetchedCaseNumber fr <;>
    cases db <;> simp [one_attempt, hf, hn]

/-- Helper: with at least one attempt in the budget, the retry loop always
terminates the case on some counter. -/
theorem process_single_case_from_isSome (envs : Nat → AttemptEnv) :
    ∀ n, 1 ≤ n → ∀ i, (process_single_case_from envs i n).1.isSome := by
  intro n
  induction n with
  | zero => omega
  | succ n ih =>
    intro _ i
    unfold process_single_case_from
    rcases hoa : one_attempt (envs i) (decide (n = 0)) with ⟨res, acts⟩
    cases res with
    | done c => simp [hoa]
    | retry =>
      rcases Nat.eq_zero_or_pos n with hn | hn
      · subst hn
        exact absurd hoa (by simpa using one_attempt_last_not_retry (envs i) acts)
      · simpa [hoa] using ih (by omega) (i + 1)

/-- C3: at run end, for every worklist and every combination of per-case
outcomes (with a retry budget of at least one attempt, as configured),
`success + failed + skipped = total`: each case's retry state machine
terminates on exactly one of the three counters, exactly once. -/
theorem C3_counters_partition_total (m : Nat) (cases : List String)
    (envs : String → Nat → AttemptEnv) (hm : 1 ≤ m) :
    (run_stats m cases envs).success + (run_stats m cases envs).failed +
        (run_stats m cases envs).skipped
      = (run_stats m cases envs).total := by
  have key : ∀ cs : List String,
      (cs.filter fun c =>
          (process_single_case m (envs c)).1 = some Counter.success).length +
        (cs.filter fun c =>
          (process_single_case m (envs c)).1 = some Counter.failed).length +
        (cs.filter fun c =>
          (process_single_case m (envs c)).1 = some Counter.skipped).length
      = cs.length := by
    intro cs
    induction cs with
    | nil => rfl
    | cons c cs ih =>
      simp only [List.filter_cons, List.length_cons]
      have hs := process_single_case_from_isSome (envs c) m hm 0
      rcases hres : (process_single_case m (envs c)).1 with _ | ctr
      · rw [process_single_case] at hres
        rw [hres] at hs
        simp at hs
      · cases ctr <;> simp [hres] <;> omega
  exact key cases

/-- Environment for the C3 witness: no token is ever available. -/
def noTokenEnvs : String → Nat → AttemptEnv := fun _ _ => ⟨none, none, false⟩

/-- C3 (witness): the partition identity at a concrete two-case run. -/
theorem C3_counters_partition_total_witness :
    1 ≤ 3 ∧
      ((run_stats 3 ["A", "B"] noTokenEnvs).success +
          (run_stats 3 ["A", "B"] noTokenEnvs).failed +
          (run_stats 3 ["A", "B"] noTokenEnvs).skipped
        = (run_stats 3 ["A", "B"] noTokenEnvs).total) :=
  ⟨by decide, C3_counters_partition_total 3 ["A", "B"] noTokenEnvs (by decide)⟩

/-- Helper: an attempt that reaches a present case (token available, truthy
payload with truthy case number, `case_exists` true) terminates on `skipped`
without invoking the pipeline or the save, on any attempt index. -/
theorem one_attempt_skips (env : AttemptEnv) (b : Bool)
    (hgood : goodCaseEnv env) (hdb : env.dbHasCase = true) :
    one_attempt env b = (AttemptRes.done Counter.skipped, []) := by
  obtain ⟨htok, hff, hcn⟩ := hgood
  rcases env with ⟨tok, fr, db⟩
  simp only at htok hff hcn hdb
  cases tok
  · simp at htok
  · rcases hn : fetchedCaseNumber fr with _ | cn
    · rw [hn] at hcn; simp at hcn
    · subst hdb
      simp [one_attempt, hff, hn]

/-- Helper: an attempt with no token or a falsy fetch, when retries remain,
retries without performing any action. -/
theorem one_attempt_prefail_retries (env : AttemptEnv)
    (h : env.token = none ∨ fetchFalsy env.fetchResult = true) :
    one_attempt env false = (AttemptRes.retry, []) := by
  rcases env with ⟨tok, fr, db⟩
  simp only at h
  cases tok
  · simp [one_attempt]
  · rcases h with h | h
    · simp at h
    · simp [one_attempt, h]

/-- Helper for C7, generalized over the starting attempt index: if every
attempt before relative index `j` fails before the case-number check and
attempt `j` reaches a present case, the loop returns `skipped` with an empty
action trace. -/
theorem process_single_case_from_skips (envs : Nat → AttemptEnv) :
    ∀ (j left i : Nat), j < left →
      (∀ k < j, (envs (i + k)).token = none ∨
        fetchFalsy (envs (i + k)).fetchResult = true) →
      goodCaseEnv (envs (i + j)) → (envs (i + j)).dbHasCase = true →
      process_single_case_from envs i left
        = (some Counter.skipped, []) := by
  intro j
  induction j with
  | zero =>
    intro left i hlt hpre hgood hdb
    obtain ⟨l, rfl⟩ : ∃ l, left = l + 1 := ⟨left - 1, by omega⟩
    unfold process_single_case_from
    have hsk : one_attempt (envs i) (decide (l = 0))
        = (AttemptRes.done Counter.skipped, []) :=
      one_attempt_skips (envs i) (decide (l = 0)) (by simpa using hgood)
        (by simpa using hdb)
    rw [hsk]
  | succ j ih =>
    intro left i hlt hpre hgood hdb
    obtain ⟨l, rfl⟩ : ∃ l, left = l + 1 := ⟨left - 1, by omega⟩
    have hl : ¬ (l = 0) := by omega
    unfold process_single_case_from
    have hfirst : one_attempt (envs i) (decide (l = 0)) = (AttemptRes.retry, []) := by
      rw [decide_eq_false hl]
      exact one_attempt_prefail_retries (envs i) (by simpa using hpre 0 (by omega))
    rw [hfirst]
    have hrest : process_single_case_from envs (i + 1) l
        = (some Counter.skipped, []) := by
      refine ih l (i + 1) (by omega) ?_ ?_ ?_
      · intro k hk
        have := hpre (k + 1) (by omega)
        simpa [Nat.add_assoc, Nat.add_comm 1 k] using this
      · have := hgood
        simpa [Nat.add_assoc, Nat.add_comm 1 j] using this
      · have := hdb
        simpa [Nat.add_assoc, Nat.add_comm 1 j] using this
    simp [hrest]

/-- C7: for every case whose fetched payload's case number is reported as
already present by the persistence sink's existence check (after any prefix
of attempts that fail before reaching that check), the worker terminates on
`skipped` — incrementing the skipped counter exactly once — and never invokes
the Document Pipeline or the save operation. -/
theorem C7_existing_case_skips (m j : Nat) (envs : Nat → AttemptEnv)
    (hj : j < m) (hpre : preFailBefore envs j) (hgood : goodCaseEnv (envs j))
    (hdb : (envs j).dbHasCase = true) :
    process_single_case m envs = (some Counter.skipped, []) ∧
      Action.pipeline ∉ (process_single_case m envs).2 ∧
      Action.save ∉ (process_single_case m envs).2 := by
  have h : process_single_case_from envs 0 m = (some Counter.skipped, []) := by
    refine process_single_case_from_skips envs j m 0 hj ?_ ?_ ?_
    · intro k hk
      simpa using hpre k hk
    · simpa using hgood
    · simpa using hdb
  refine ⟨h, ?_, ?_⟩ <;> rw [process_single_case, h] <;> simp

/-- Attempt environments for the C7 witness: the first attempt has no token,
the second fetches case "C-100" which the sink reports as present. -/
def skipEnvs : Nat → AttemptEnv := fun i =>
  if i = 0 then ⟨none, none, false⟩
  else ⟨some "tok", some ⟨some ⟨some "C-100", [], []⟩⟩, true⟩

/-- C7 (witness): the skip short-circuit at a concrete case. -/
theorem C7_existing_case_skips_witness :
    1 < 3 ∧ preFailBefore skipEnvs 1 ∧ goodCaseEnv (skipEnvs 1) ∧
      (skipEnvs 1).dbHasCase = true ∧
      (process_single_case 3 skipEnvs = (some Counter.skipped, []) ∧
        Action.pipeline ∉ (process_single_case 3 skipEnvs).2 ∧
        Action.save ∉ (process_single_case 3 skipEnvs).2) :=
  ⟨by decide, by decide, by decide, by decide,
    C7_existing_case_skips 3 1 skipEnvs (by decide) (by decide) (by decide)
      (by decide)⟩

/-- Helper: every document occurrence of the injected payload is the
injection of a document occurrence of the original payload. -/
theorem mem_allDocs_inject (dmap : String → Option String) (p : CasePayload)
    (d : DocRef) (hd : d ∈ allDocs (inject_documents_into_case dmap p)) :
    ∃ d0 ∈ allDocs p, d = injectDoc dmap d0 := by
  rcases p with ⟨_ | cd⟩
  · simp [inject_documents_into_case, allDocs, getData] at hd
  · simp only [inject_documents_into_case, allDocs, getData, Option.getD,
      injectEntry, List.mem_flatMap, List.mem_append, List.mem_map] at hd ⊢
    obtain ⟨e, he, hde⟩ := hd
    rcases he with ⟨e0, he0, rfl⟩ | ⟨e0, he0, rfl⟩ <;>
      · simp only [List.mem_map] at hde
        obtain ⟨d0, hd0, rfl⟩ := hde
        first
          | exact ⟨d0, ⟨e0, Or.inl he0, hd0⟩, rfl⟩
          | exact ⟨d0, ⟨e0, Or.inr he0, hd0⟩, rfl⟩

/-- Helper: a truthy document id of any document occurrence appears in the
extracted id list. -/
theorem truthyId_mem_extract (p : CasePayload) (d : DocRef) (i : String)
    (hd : d ∈ allDocs p) (hi : truthyStr d.documentId = some i) :
    i ∈ extract_document_ids p := by
  simp only [allDocs, List.mem_flatMap, List.mem_append] at hd
  obtain ⟨e, he, hde⟩ := hd
  simp only [extract_document_ids, List.mem_append, List.mem_flatMap,
    entryDocIds, List.mem_filterMap]
  rcases he with he | he
  · exact Or.inl ⟨e, he, d, hde, hi⟩
  · exact Or.inr ⟨e, he, d, hde, hi⟩

/-- C8: after the Document Pipeline completes on a payload whose documents
carry no content yet, every occurrence of a document id — including an id
appearing under both an event and a hearing — carries exactly the content its
retry download produced (the same content at all locations of that id), and
any document whose download failed after retry exhaustion, or whose id is
missing, is left without content. -/
theorem C8_attachment_consistency (fetch : Nat → String → Option String)
    (maxR : Nat) (p : CasePayload) (hclean : allDocsClean p) :
    docsConsistent fetch maxR (process_case fetch maxR p) := by
  intro d hd
  by_cases hids : extract_document_ids p = []
  · rw [process_case, if_pos hids] at hd
    rcases ht : truthyStr d.documentId with _ | i
    · simpa [ht] using hclean d hd
    · exact absurd (truthyId_mem_extract p d i hd ht) (by simp [hids])
  · rw [process_case, if_neg hids] at hd
    obtain ⟨d0, hd0, rfl⟩ := mem_allDocs_inject _ p d hd
    rcases ht : truthyStr d0.documentId with _ | i
    · have hid : injectDoc (download_documents fetch maxR
          (extract_document_ids p)) d0 = d0 := by
        simp only [injectDoc, ht]
      rw [hid]
      simpa [ht] using hclean d0 hd0
    · have hmem : i ∈ extract_document_ids p := truthyId_mem_extract p d0 i hd0 ht
      have hmap : download_documents fetch maxR (extract_document_ids p) i
          = download_document_with_retry fetch maxR i := by
        unfold download_documents
        rw [if_pos hmem]
      rcases hdl : download_document_with_retry fetch maxR i with _ | c
      · have hid : injectDoc (download_documents fetch maxR
            (extract_document_ids p)) d0 = d0 := by
          simp only [injectDoc, ht, hmap, hdl]
        rw [hid]
        simpa [ht, hdl] using hclean d0 hd0
      · have hid : injectDoc (download_documents fetch maxR
            (extract_document_ids p)) d0
            = { d0 with pdf_base64 := some c } := by
          simp only [injectDoc, ht, hmap, hdl]
        rw [hid]
        show some c = match truthyStr d0.documentId with
          | some i => download_document_with_retry fetch maxR i
          | none => none
        rw [ht]
        exact hdl.symm

/-- A payload for the C8 witness: document id "D1" appears under both an
event and a hearing, "D2" only under the event; the fetch succeeds for "D1"
and always fails for "D2". -/
def dupIdPayload : CasePayload :=
  ⟨some ⟨some "C-9",
    [⟨[⟨some "D1", some "motion", none⟩, ⟨some "D2", some "order", none⟩]⟩],
    [⟨[⟨some "D1", some "motion", none⟩]⟩]⟩⟩

/-- The document fetch for the C8 witness. -/
def fetchD1 : Nat → String → Option String := fun _ id =>
  if id = "D1" then some "PDF1" else none

/-- C8 (witness): attachment consistency at a concrete payload with a
duplicated document id. -/
theorem C8_attachment_consistency_witness :
    allDocsClean dupIdPayload ∧
      docsConsistent fetchD1 3 (process_case fetchD1 3 dupIdPayload) :=
  ⟨by decide, C8_attachment_consistency fetchD1 3 dupIdPayload (by decide)⟩

/-- A fetched payload used to exercise the not-skipped path for C10. -/
def freshPayload : CasePayload :=
  ⟨some ⟨some "C-200", [], []⟩⟩

/-- C10: whenever the persistence sink's existence query raises,
`case_exists` returns `False` — the erroring check is treated as "not
present" — and a worker attempt that fetched a payload under that answer is
not skipped: it proceeds into the document-download/save branch (the
Document Pipeline is invoked) instead of terminating on `skipped`. -/
theorem C10_error_means_not_present
    (query : String → Except String (Option (List String)))
    (cn e : String) (hq : query cn = .error e) :
    case_exists query cn = false ∧
      (process_single_case 1
          (fun _ => ⟨some "tok", some freshPayload, case_exists query cn⟩)).1
        ≠ some Counter.skipped ∧
      Action.pipeline ∈ (process_single_case 1
        (fun _ => ⟨some "tok", some freshPayload, case_exists query cn⟩)).2 := by
  have hfalse : case_exists query cn = false := by
    unfold case_exists
    rw [hq]
  rw [hfalse]
  refine ⟨rfl, ?_, ?_⟩ <;> decide

/-- An always-raising existence query for the C10 witness. -/
def erroringQuery : String → Except String (Option (List String)) :=
  fun _ => .error "connection refused"

/-- C10 (witness): the erroring-check behaviour at a concrete query. -/
theorem C10_error_means_not_present_witness :
    erroringQuery "C-200" = .error "connection refused" ∧
      (case_exists erroringQuery "C-200" = false ∧
        (process_single_case 1
            (fun _ => ⟨some "tok", some freshPayload,
              case_exists erroringQuery "C-200"⟩)).1
          ≠ some Counter.skipped ∧
        Action.pipeline ∈ (process_single_case 1
          (fun _ => ⟨some "tok", some freshPayload,
            case_exists erroringQuery "C-200"⟩)).2) :=
  ⟨rfl, C10_error_means_not_present erroringQuery "C-200" "connection refused" rfl⟩

end Scscourt
